import Mathlib

/-!
Shallow embedding of `src/marketing/video-parts/create_slides.py`.

The script renders three frame sequences (intro, chat demo, outro).  The
chat-demo renderer `create_chat_demo_frame(progress, phase)` draws fixed
chrome and three visibility-gated sub-layers; `main` drives it with a
nested loop over `phase_frames = [90, 180, 90]`.  Intro and outro frames
are faded with `Image.blend` over 30-frame ramps.

Pixel rasterisation is not modelled; instead each frame is embedded as
the record of the layer-drawing decisions the source makes: which layers
are drawn, with which computed reveal state, text, colors and opacity.
`progress` is a rational, `phase` an integer (Python `int`).
-/

/-- Python `int()` on a rational: truncation toward zero. -/
def pyInt (q : ℚ) : ℤ := if q < 0 then -(⌊-q⌋) else ⌊q⌋

/-- Python string slice `s[:n]` for an integer `n`: a nonnegative `n`
takes the first `n` characters; a negative `n` drops `-n` characters
from the end. -/
def pyStrTake (s : String) (n : ℤ) : String :=
  if 0 ≤ n then s.take n.toNat else s.take (s.length - (-n).toNat)

/-- Python list slice `l[:n]` for an integer `n`, as in `todos[:k]`. -/
def pyListTake {α : Type} (l : List α) (n : ℤ) : List α :=
  if 0 ≤ n then l.take n.toNat else l.take (l.length - (-n).toNat)

-- Brand colors (module-level constants of the script).
def INDIGO : ℕ × ℕ × ℕ := (99, 102, 241)
def CYAN : ℕ × ℕ × ℕ := (34, 211, 238)
def DARK_BG : ℕ × ℕ × ℕ := (26, 26, 46)
def WHITE : ℕ × ℕ × ℕ := (255, 255, 255)
def DARKER_BG : ℕ × ℕ × ℕ := (15, 15, 30)

/-- The fixed user message `user_msg`. -/
def user_msg : String := "Can you build me a todo app?"

/-- The fixed agent response text (the triple-quoted `agent_response`
string literal; `\x27` is the ASCII apostrophe). -/
def agent_response : String :=
  "I\x27ve created your todo app! 🎉\n\nIt\x27s now live and ready to use at:\nonhyper.io/a/your-todo-app\n\nFeatures included:\n✓ Add, edit, delete todos\n✓ Mark as complete\n✓ Local storage persistence\n✓ Responsive design\n\nYour app is deployed and ready!"

/-- The fixed `todos` list of (label, doneFlag) pairs. -/
def todos : List (String × Bool) :=
  [("☐ Build landing page", true),
   ("☑ Create API endpoints", true),
   ("☐ Add user auth", false),
   ("☑ Deploy to production", true)]

/-- Python: `chars_to_show = int(len(agent_response) * min(1.0, progress * 1.5))`. -/
def typedRevealCount (progress : ℚ) : ℤ :=
  pyInt ((agent_response.length : ℚ) * min 1 (progress * (3 / 2)))

/-- The local `alpha` computed for the user bubble:
`alpha = min(1.0, progress * 4) if phase == 0 else 1.0`. -/
def userAlpha (progress : ℚ) (phase : ℤ) : ℚ :=
  if phase = 0 then min 1 (progress * 4) else 1

/-- The agent bubble text actually drawn: while `phase == 1` the
`chars_to_show`-character prefix, with the caret `▌` appended while
`chars_to_show < len(agent_response)`; otherwise the full text. -/
def agentVisibleText (progress : ℚ) (phase : ℤ) : String :=
  if phase = 1 then
    let chars_to_show := typedRevealCount progress
    let visible_text := pyStrTake agent_response chars_to_show
    if chars_to_show < (agent_response.length : ℤ) then visible_text ++ "▌"
    else visible_text
  else agent_response

/-- Python: `opacity = min(1.0, progress * 2) if phase == 2 else 1.0`. -/
def previewOpacity (progress : ℚ) (phase : ℤ) : ℚ :=
  if phase = 2 then min 1 (progress * 2) else 1

/-- The user-bubble layer as drawn: `alphaVar` is the computed local
`alpha`; the `rounded_rectangle` call paints the solid RGB `fill`
`(60, 60, 100)` on the RGB canvas without using `alpha` (the source
notes `Simplified - just draw the bubble`), so the effective drawn
opacity `drawnAlpha` is 1. -/
structure UserBubble where
  alphaVar : ℚ
  fill : ℕ × ℕ × ℕ
  drawnAlpha : ℚ
deriving DecidableEq

/-- The app-preview layer: the todo items actually drawn, each paired
with its fill color (`CYAN if done else WHITE`), and whether the URL
caption is drawn. -/
structure Preview where
  itemsDrawn : List ((String × Bool) × (ℕ × ℕ × ℕ))
  urlCaption : Bool
deriving DecidableEq

/-- One chat-demo frame: the three visibility-gated sub-layers of
`create_chat_demo_frame` (fixed chrome is unconditional and carries no
state, so it is omitted). `none` means the layer is not drawn. -/
structure ChatFrame where
  userBubble : Option UserBubble
  agentText : Option String
  preview : Option Preview
deriving DecidableEq

/-- The function `create_chat_demo_frame(progress, phase)`: the layer-drawing
decisions of the source, in order — user bubble when `phase >= 0`,
agent bubble when `phase >= 1`, app preview when `phase >= 2` with
`todos[:int(len(todos) * opacity)]` items and the URL caption gated by
`phase == 2 and progress > 0.5`. -/
def create_chat_demo_frame (progress : ℚ) (phase : ℤ) : ChatFrame :=
  { userBubble :=
      if 0 ≤ phase then
        some { alphaVar := userAlpha progress phase
               fill := (60, 60, 100)
               drawnAlpha := 1 }
      else none
    agentText :=
      if 1 ≤ phase then some (agentVisibleText progress phase) else none
    preview :=
      if 2 ≤ phase then
        some { itemsDrawn :=
                 (pyListTake todos
                     (pyInt ((todos.length : ℚ) * previewOpacity progress phase))).map
                   (fun td => (td, if td.2 then CYAN else WHITE))
               urlCaption := decide (phase = 2 ∧ 1 / 2 < progress) }
      else none }

/-- Effective drawn opacity of the user bubble, if drawn. -/
def userBubbleDrawnAlpha (f : ChatFrame) : Option ℚ :=
  f.userBubble.map (fun u => u.drawnAlpha)

/-- Number of preview items drawn, if the preview layer is drawn. -/
def previewItemCount (f : ChatFrame) : Option ℕ :=
  f.preview.map (fun p => p.itemsDrawn.length)

/-- Whether the URL caption is drawn on the frame. -/
def urlShown (f : ChatFrame) : Bool :=
  match f.preview with
  | none => false
  | some p => p.urlCaption

/-- The (phase, progress) timeline of `main`'s nested loop
`for phase, frames in enumerate(phase_frames): for i in range(frames):
progress = i / frames`, started at phase counter `k`. -/
def frameSeqFrom : ℕ → List ℕ → List (ℕ × ℚ)
  | _, [] => []
  | k, d :: ds =>
    ((List.range d).map fun (i : ℕ) => (k, (i : ℚ) / (d : ℚ))) ++ frameSeqFrom (k + 1) ds

/-- The list `phase_frames = [90, 180, 90]` of the chat demo. -/
def phase_frames : List ℕ := [90, 180, 90]

/-- The chat-demo timeline: frame index ↦ (phase, progress). -/
def chatTimeline : List (ℕ × ℚ) := frameSeqFrom 0 phase_frames

/-- What the per-frame fade branch does to a slide frame. -/
inductive FadeOp where
  /-- Fade in, `Image.blend(background, frame, factor)`: background toward content. -/
  | blendToContent (factor : ℚ)
  /-- Fade out, `Image.blend(frame, background, factor)`: content toward background. -/
  | blendToBackground (factor : ℚ)
  /-- neither branch taken: the frame is saved unchanged. -/
  | passThrough
deriving DecidableEq

/-- The fade branch of the slide loops: `if i < 30: blend(bg, frame, i/30)
elif i > fadeOutStart: blend(frame, bg, (i - fadeOutStart)/30)`. -/
def slideFade (fadeOutStart i : ℕ) : FadeOp :=
  if i < 30 then FadeOp.blendToContent ((i : ℚ) / 30)
  else if fadeOutStart < i then
    FadeOp.blendToBackground (((i : ℚ) - fadeOutStart) / 30)
  else FadeOp.passThrough

/-- Intro loop: 150 frames, fade-out branch is `i > 120`. -/
def introFade (i : ℕ) : FadeOp := slideFade 120 i

/-- Outro loop: 180 frames, fade-out branch is `i > 150`. -/
def outroFade (i : ℕ) : FadeOp := slideFade 150 i

/-- PIL `Image.blend(im1, im2, alpha)` on one channel:
`im1 + alpha * (im2 - im1)`. -/
def pilBlend (c1 c2 a : ℚ) : ℚ := c1 + a * (c2 - c1)

/-- A font as returned by `get_font`: a loaded truetype file or the
PIL built-in default. -/
inductive FontHandle where
  | truetype (path : String) (size : ℕ)
  | defaultFont
deriving DecidableEq

/-- The ordered candidate list `font_names` (third entry depends on `bold`). -/
def font_names (bold : Bool) : List String :=
  ["/System/Library/Fonts/Helvetica.ttc",
   "/System/Library/Fonts/SFNSDisplay.ttf",
   if bold then "/Library/Fonts/Arial Bold.ttf" else "/Library/Fonts/Arial.ttf"]

/-- The loop of `get_font`: for each candidate, if the file exists and
`ImageFont.truetype` succeeds, return it; a raised load error is caught
and the loop continues (`pathExists` and `loadable` are oracles for the
filesystem and the font loader). Past the list, `load_default()`. -/
def tryFontList (pathExists loadable : String → Bool) (size : ℕ) :
    List String → FontHandle
  | [] => FontHandle.defaultFont
  | n :: ns =>
    if pathExists n && loadable n then FontHandle.truetype n size
    else tryFontList pathExists loadable size ns

/-- The function `get_font(size, bold)` under filesystem/loader oracles. -/
def get_font (size : ℕ) (bold : Bool) (pathExists loadable : String → Bool) :
    FontHandle :=
  tryFontList pathExists loadable size (font_names bold)

/-! ## Timeline lemmas -/

theorem frameSeqFrom_cons (k d : ℕ) (ds : List ℕ) :
    frameSeqFrom k (d :: ds)
      = ((List.range d).map fun (i : ℕ) => (k, (i : ℚ) / (d : ℚ))) ++ frameSeqFrom (k + 1) ds :=
  rfl

theorem frameSeqFrom_block_length (k d : ℕ) :
    ((List.range d).map fun (i : ℕ) => (k, (i : ℚ) / (d : ℚ))).length = d := by
  rw [List.length_map, List.length_range]

theorem frameSeqFrom_length (k : ℕ) (ds : List ℕ) :
    (frameSeqFrom k ds).length = ds.sum := by
  induction ds generalizing k with
  | nil => rfl
  | cons d ds ih =>
    rw [frameSeqFrom_cons, List.length_append, frameSeqFrom_block_length, ih, List.sum_cons]

theorem frameSeqFrom_get_mem (ds : List ℕ) (k idx : ℕ)
    (hpos : ∀ d ∈ ds, 0 < d) (hidx : idx < ds.sum) :
    ∃ p pr, (frameSeqFrom k ds)[idx]? = some (p, pr) ∧
      k ≤ p ∧ p < k + ds.length ∧ 0 ≤ pr ∧ pr < 1 := by
  induction ds generalizing k idx with
  | nil => simp at hidx
  | cons d ds ih =>
    have hd : 0 < d := hpos d (List.mem_cons_self d ds)
    by_cases h : idx < d
    · refine ⟨k, (idx : ℚ) / d, ?_, le_refl k, ?_, ?_, ?_⟩
      · rw [frameSeqFrom_cons,
          List.getElem?_append_left (by rw [frameSeqFrom_block_length]; exact h),
          List.getElem?_map, List.getElem?_range h]
        rfl
      · rw [List.length_cons]; omega
      · positivity
      · rw [div_lt_one (by exact_mod_cast hd)]
        exact_mod_cast h
    · push_neg at h
      have hsum : idx - d < ds.sum := by
        rw [List.sum_cons] at hidx; omega
      obtain ⟨p, pr, hget, hkp, hplen, hpr0, hpr1⟩ :=
        ih (k + 1) (idx - d) (fun x hx => hpos x (List.mem_cons_of_mem d hx)) hsum
      refine ⟨p, pr, ?_, by omega, ?_, hpr0, hpr1⟩
      · rw [frameSeqFrom_cons,
          List.getElem?_append_right (by rw [frameSeqFrom_block_length]; exact h),
          frameSeqFrom_block_length]
        exact hget
      · rw [List.length_cons]; omega

theorem frameSeqFrom_phase_ends (ds : List ℕ) (k0 k : ℕ) (h : k < ds.length)
    (hpos : ∀ d ∈ ds, 0 < d) :
    (frameSeqFrom k0 ds)[(ds.take k).sum]? = some (k0 + k, 0) ∧
    (frameSeqFrom k0 ds)[(ds.take k).sum + (ds[k] - 1)]? =
      some (k0 + k, ((ds[k] - 1 : ℕ) : ℚ) / (ds[k] : ℚ)) := by
  induction ds generalizing k0 k with
  | nil => simp at h
  | cons d ds ih =>
    have hd : 0 < d := hpos d (List.mem_cons_self d ds)
    cases k with
    | zero =>
      simp only [List.take_zero, List.sum_nil, List.getElem_cons_zero, Nat.zero_add,
        Nat.add_zero]
      constructor
      · rw [frameSeqFrom_cons,
          List.getElem?_append_left (by rw [frameSeqFrom_block_length]; exact hd),
          List.getElem?_map, List.getElem?_range hd]
        simp
      · rw [frameSeqFrom_cons,
          List.getElem?_append_left (by rw [frameSeqFrom_block_length]; omega),
          List.getElem?_map, List.getElem?_range (by omega : d - 1 < d)]
        rfl
    | succ k' =>
      have h' : k' < ds.length := by
        rw [List.length_cons] at h; omega
      have hpos' : ∀ x ∈ ds, 0 < x := fun x hx => hpos x (List.mem_cons_of_mem d hx)
      simp only [List.take_succ_cons, List.sum_cons, List.getElem_cons_succ]
      constructor
      · rw [frameSeqFrom_cons,
          List.getElem?_append_right
            (by rw [frameSeqFrom_block_length]; exact Nat.le_add_right d _),
          frameSeqFrom_block_length, Nat.add_sub_cancel_left,
          show k0 + (k' + 1) = k0 + 1 + k' by omega]
        exact (ih k0.succ k' h' hpos').1
      · rw [frameSeqFrom_cons, Nat.add_assoc,
          List.getElem?_append_right
            (by rw [frameSeqFrom_block_length]; exact Nat.le_add_right d _),
          frameSeqFrom_block_length, Nat.add_sub_cancel_left,
          show k0 + (k' + 1) = k0 + 1 + k' by omega]
        exact (ih k0.succ k' h' hpos').2

theorem frameSeqFrom_get_in_phase (ds : List ℕ) (k0 k i : ℕ) (h : k < ds.length)
    (hi : i < ds[k]) :
    (frameSeqFrom k0 ds)[(ds.take k).sum + i]? = some (k0 + k, (i : ℚ) / (ds[k] : ℚ)) := by
  induction ds generalizing k0 k with
  | nil => simp at h
  | cons d ds ih =>
    cases k with
    | zero =>
      simp only [List.getElem_cons_zero] at hi
      simp only [List.take_zero, List.sum_nil, List.getElem_cons_zero, Nat.zero_add,
        Nat.add_zero]
      rw [frameSeqFrom_cons,
        List.getElem?_append_left (by rw [frameSeqFrom_block_length]; exact hi),
        List.getElem?_map, List.getElem?_range hi]
      rfl
    | succ k' =>
      have h' : k' < ds.length := by
        rw [List.length_cons] at h; omega
      simp only [List.getElem_cons_succ] at hi
      simp only [List.take_succ_cons, List.sum_cons, List.getElem_cons_succ]
      rw [Nat.add_assoc, frameSeqFrom_cons,
        List.getElem?_append_right
          (by rw [frameSeqFrom_block_length]; exact Nat.le_add_right d _),
        frameSeqFrom_block_length, Nat.add_sub_cancel_left,
        show k0 + (k' + 1) = k0 + 1 + k' by omega]
      exact ih (k0 + 1) k' h' hi

/-! ## Claim C3: timeline mapping -/

/-- Claim C3: for every `frame_index` with `0 <= frame_index <
sum(phase_durations)`, `phase_durations` positive, the nested
frame-generation loop assigns a phase id within the valid phase set and
a progress in `[0, 1)`; the first frame of each phase `k` gets progress
0 and the last frame of a phase of duration `n` gets progress
`(n-1)/n`, strictly less than 1. -/
theorem C3_timeline_locate (ds : List ℕ) (hpos : ∀ d ∈ ds, 0 < d) :
    (∀ idx, idx < ds.sum →
      ∃ p pr, (frameSeqFrom 0 ds)[idx]? = some (p, pr) ∧
        p < ds.length ∧ 0 ≤ pr ∧ pr < 1) ∧
    (∀ k, (h : k < ds.length) →
      (frameSeqFrom 0 ds)[(ds.take k).sum]? = some (k, 0) ∧
      (frameSeqFrom 0 ds)[(ds.take k).sum + (ds[k] - 1)]? =
        some (k, ((ds[k] - 1 : ℕ) : ℚ) / (ds[k] : ℚ)) ∧
      ((ds[k] - 1 : ℕ) : ℚ) / (ds[k] : ℚ) < 1) := by
  constructor
  · intro idx hidx
    obtain ⟨p, pr, hget, _, hlen, h0, h1⟩ := frameSeqFrom_get_mem ds 0 idx hpos hidx
    exact ⟨p, pr, hget, by simpa using hlen, h0, h1⟩
  · intro k h
    have hd : 0 < ds[k] := hpos _ (List.getElem_mem h)
    obtain ⟨h1, h2⟩ := frameSeqFrom_phase_ends ds 0 k h hpos
    refine ⟨by simpa using h1, by simpa using h2, ?_⟩
    rw [div_lt_one (by exact_mod_cast hd)]
    exact_mod_cast Nat.sub_lt hd Nat.one_pos

/-- Witness for C3 at the chat-demo durations `[90, 180, 90]`. -/
theorem C3_timeline_locate_witness :
    (∀ d ∈ phase_frames, 0 < d) ∧
    (∃ p pr, (frameSeqFrom 0 phase_frames)[(100 : ℕ)]? = some (p, pr) ∧
      p < phase_frames.length ∧ 0 ≤ pr ∧ pr < 1) ∧
    (frameSeqFrom 0 phase_frames)[(phase_frames.take 1).sum]? = some (1, 0) :=
  ⟨by decide, (C3_timeline_locate phase_frames (by decide)).1 100 (by decide),
    ((C3_timeline_locate phase_frames (by decide)).2 1 (by decide)).1⟩

/-! ## Claim C2: frame 269 -/

/-- Counterexample to claim C2: chat-demo frame 269 is the last frame of
phase 1 (progress 179/180), not a phase-2 frame with progress ≈ 0.5, and
its rendering draws no preview items and no URL caption. -/
theorem C2_frame269_counterexample :
    chatTimeline[269]? = some (1, 179 / 180) ∧ (1 : ℕ) ≠ 2 ∧
    previewItemCount (create_chat_demo_frame (179 / 180) 1) = none ∧
    urlShown (create_chat_demo_frame (179 / 180) 1) = false := by
  refine ⟨?_, by norm_num, ?_, ?_⟩
  · have h := frameSeqFrom_get_in_phase [90, 180, 90] 0 1 179 (by norm_num) (by norm_num)
    simpa [chatTimeline, phase_frames] using h
  · norm_num [previewItemCount, create_chat_demo_frame]
  · norm_num [urlShown, create_chat_demo_frame]

/-- Claim C2 amended: in the 360-frame chat-demo sequence, frame 269 is
the last frame of phase 1 (progress 179/180); the frame of phase 2 with
progress ≈ 0.5 that shows all 4 preview items and the URL caption is
index 316 (progress 46/90 = 23/45), while index 315 (progress exactly
0.5) shows the 4 items but hides the caption. -/
theorem C2_frame316_amended :
    chatTimeline[269]? = some (1, 179 / 180) ∧
    chatTimeline[316]? = some (2, 23 / 45) ∧
    previewItemCount (create_chat_demo_frame (23 / 45) 2) = some 4 ∧
    urlShown (create_chat_demo_frame (23 / 45) 2) = true ∧
    chatTimeline[315]? = some (2, 1 / 2) ∧
    previewItemCount (create_chat_demo_frame (1 / 2) 2) = some 4 ∧
    urlShown (create_chat_demo_frame (1 / 2) 2) = false := by
  refine ⟨?_, ?_, ?_, ?_, ?_, ?_, ?_⟩
  · have h := frameSeqFrom_get_in_phase [90, 180, 90] 0 1 179 (by norm_num) (by norm_num)
    simpa [chatTimeline, phase_frames] using h
  · rw [show (23 : ℚ) / 45 = 46 / 90 by norm_num]
    have h := frameSeqFrom_get_in_phase [90, 180, 90] 0 2 46 (by norm_num) (by norm_num)
    simpa [chatTimeline, phase_frames] using h
  · norm_num [previewItemCount, create_chat_demo_frame, previewOpacity, pyListTake,
      pyInt, todos, min_def]
    decide
  · norm_num [urlShown, create_chat_demo_frame]
  · rw [show (1 : ℚ) / 2 = 45 / 90 by norm_num]
    have h := frameSeqFrom_get_in_phase [90, 180, 90] 0 2 45 (by norm_num) (by norm_num)
    simpa [chatTimeline, phase_frames] using h
  · norm_num [previewItemCount, create_chat_demo_frame, previewOpacity, pyListTake,
      pyInt, todos, min_def]
    decide
  · norm_num [urlShown, create_chat_demo_frame]

/-! ## Claim C10: fade-out never completes -/

/-- Claim C10: the final intro frame (index 149) and final outro frame
(index 179) are blended toward the background with factor 29/30,
strictly less than 1, so the blend leaves the slide content visible
whenever it differs from the background. -/
theorem C10_fade_never_completes :
    introFade 149 = FadeOp.blendToBackground (29 / 30) ∧
    outroFade 179 = FadeOp.blendToBackground (29 / 30) ∧
    (29 / 30 : ℚ) < 1 ∧
    ∀ c bg : ℚ, c ≠ bg → pilBlend c bg (29 / 30) ≠ bg := by
  refine ⟨?_, ?_, by norm_num, ?_⟩
  · norm_num [introFade, slideFade]
  · norm_num [outroFade, slideFade]
  · intro c bg hne heq
    apply hne
    simp only [pilBlend] at heq
    linarith

/-- Witness for C10 on a concrete channel pair. -/
theorem C10_fade_never_completes_witness :
    introFade 149 = FadeOp.blendToBackground (29 / 30) ∧
    (0 : ℚ) ≠ 1 ∧ pilBlend 0 1 (29 / 30) ≠ 1 :=
  ⟨C10_fade_never_completes.1, by norm_num,
    C10_fade_never_completes.2.2.2 0 1 (by norm_num)⟩

/-! ## Claim C1: user bubble alpha -/

/-- Counterexample to claim C1: at phase 0, progress 0 the claimed
fade-in alpha is min(1, 0*4) = 0, but the user bubble is drawn fully
opaque: the computed `alpha` local is never passed to a drawing call. -/
theorem C1_user_bubble_counterexample :
    userBubbleDrawnAlpha (create_chat_demo_frame 0 0) = some 1 ∧
    userBubbleDrawnAlpha (create_chat_demo_frame 0 0) ≠ some (min 1 ((0 : ℚ) * 4)) := by
  constructor
  · norm_num [userBubbleDrawnAlpha, create_chat_demo_frame]
  · norm_num [userBubbleDrawnAlpha, create_chat_demo_frame, min_def]

/-- Claim C1 amended: during phase 0 the code computes a fade-in alpha
variable min(1, progress*4) for the user bubble (1.0 in every later
phase) but never applies it: for every phase ≥ 0 and every progress the
bubble layer is drawn with the solid fill (60, 60, 100) at full
opacity, including at phase 0, progress 0. -/
theorem C1_user_bubble_amended (progress : ℚ) (phase : ℤ) (h : 0 ≤ phase) :
    (create_chat_demo_frame progress phase).userBubble =
      some { alphaVar := if phase = 0 then min 1 (progress * 4) else 1
             fill := (60, 60, 100)
             drawnAlpha := 1 } := by
  simp [create_chat_demo_frame, userAlpha, h]

/-- Witness for the amended C1 at phase 0, progress 0. -/
theorem C1_user_bubble_amended_witness :
    (create_chat_demo_frame 0 0).userBubble =
      some { alphaVar := if (0 : ℤ) = 0 then min 1 ((0 : ℚ) * 4) else 1
             fill := (60, 60, 100)
             drawnAlpha := 1 } :=
  C1_user_bubble_amended 0 0 (le_refl 0)

/-! ## Claim C6: URL caption threshold -/

/-- Claim C6: for every phase and progress, the URL caption is drawn
iff `phase == 2 and progress > 0.5` — a hard threshold gate, so it is
hidden at progress exactly 1/2 and shown at any larger progress in
phase 2. -/
theorem C6_url_caption_gate (phase : ℤ) (progress : ℚ) :
    urlShown (create_chat_demo_frame progress phase) = true ↔
      (phase = 2 ∧ 1 / 2 < progress) := by
  by_cases h : 2 ≤ phase
  · simp [urlShown, create_chat_demo_frame, h]
  · have h2 : ¬ phase = 2 := by omega
    simp [urlShown, create_chat_demo_frame, h, h2]

/-! ## Claim C7: slide fade envelope -/

/-- Claim C7: for the intro (150-frame) and outro (180-frame) slide
sequences with 30-frame ramps: a frame with i < 30 is the background
blended toward the content with factor i/30 (frame 0 is pure
background, since blending with factor 0 returns the first image); a
frame with i > total-30 is the content blended toward the background
with factor (i-(total-30))/30; every other frame, including the
boundary frames i = 30 and i = total-30, passes through unblended. -/
theorem C7_fade_envelope (i : ℕ) :
    (i < 30 → introFade i = FadeOp.blendToContent ((i : ℚ) / 30) ∧
              outroFade i = FadeOp.blendToContent ((i : ℚ) / 30)) ∧
    (120 < i → introFade i = FadeOp.blendToBackground (((i : ℚ) - 120) / 30)) ∧
    (150 < i → outroFade i = FadeOp.blendToBackground (((i : ℚ) - 150) / 30)) ∧
    (30 ≤ i → i ≤ 120 → introFade i = FadeOp.passThrough) ∧
    (30 ≤ i → i ≤ 150 → outroFade i = FadeOp.passThrough) ∧
    introFade 0 = FadeOp.blendToContent 0 ∧
    outroFade 0 = FadeOp.blendToContent 0 ∧
    (∀ bg c : ℚ, pilBlend bg c 0 = bg) := by
  refine ⟨fun h => ⟨?_, ?_⟩, fun h => ?_, fun h => ?_, fun h h' => ?_, fun h h' => ?_,
    ?_, ?_, fun bg c => ?_⟩
  · simp [introFade, slideFade, h]
  · simp [outroFade, slideFade, h]
  · simp [introFade, slideFade, show ¬ i < 30 by omega, h]
  · simp [outroFade, slideFade, show ¬ i < 30 by omega, h]
  · simp [introFade, slideFade, show ¬ i < 30 by omega, show ¬ 120 < i by omega]
  · simp [outroFade, slideFade, show ¬ i < 30 by omega, show ¬ 150 < i by omega]
  · norm_num [introFade, slideFade]
  · norm_num [outroFade, slideFade]
  · simp [pilBlend]

/-- Witness for C7 at concrete frame indices. -/
theorem C7_fade_envelope_witness :
    introFade 10 = FadeOp.blendToContent (((10 : ℕ) : ℚ) / 30) ∧
    introFade 30 = FadeOp.passThrough ∧
    outroFade 179 = FadeOp.blendToBackground ((((179 : ℕ) : ℚ) - 150) / 30) :=
  ⟨((C7_fade_envelope 10).1 (by norm_num)).1,
    (C7_fade_envelope 30).2.2.2.1 (by norm_num) (by norm_num),
    (C7_fade_envelope 179).2.2.1 (by norm_num)⟩

/-! ## Claim C9: font fallback -/

theorem tryFontList_spec (pathExists loadable : String → Bool) (size : ℕ)
    (l : List String) :
    (tryFontList pathExists loadable size l = FontHandle.defaultFont ∧
      ∀ p ∈ l, ¬(pathExists p = true ∧ loadable p = true)) ∨
    (∃ p ∈ l, pathExists p = true ∧ loadable p = true ∧
      tryFontList pathExists loadable size l = FontHandle.truetype p size) := by
  induction l with
  | nil => exact Or.inl ⟨rfl, by simp⟩
  | cons n ns ih =>
    by_cases h : (pathExists n && loadable n) = true
    · rw [Bool.and_eq_true] at h
      right
      refine ⟨n, List.mem_cons_self n ns, h.1, h.2, ?_⟩
      simp [tryFontList, h.1, h.2]
    · have hstep : tryFontList pathExists loadable size (n :: ns)
          = tryFontList pathExists loadable size ns := by
        simp only [tryFontList, if_neg h]
      rcases ih with ⟨hdef, hall⟩ | ⟨p, hp, hex, hld, heq⟩
      · left
        rw [hstep]
        refine ⟨hdef, ?_⟩
        intro p hp
        rcases List.mem_cons.mp hp with rfl | hp'
        · rintro ⟨he, hl⟩
          exact h (by simp [he, hl])
        · exact hall p hp'
      · right
        rw [hstep]
        exact ⟨p, List.mem_cons_of_mem n hp, hex, hld, heq⟩

/-- Claim C9: for every size and bold flag, and every behavior of the
filesystem (`pathExists`) and of the truetype loader (`loadable`, with
load failures caught by the bare `except`), `get_font` returns a font
to the caller: either some candidate of the ordered `font_names` list
exists and loads and the result is such a truetype font, or
no candidate does and the result is the built-in default font. -/
theorem C9_get_font_total (size : ℕ) (bold : Bool)
    (pathExists loadable : String → Bool) :
    (get_font size bold pathExists loadable = FontHandle.defaultFont ∧
      ∀ p ∈ font_names bold, ¬(pathExists p = true ∧ loadable p = true)) ∨
    (∃ p ∈ font_names bold, pathExists p = true ∧ loadable p = true ∧
      get_font size bold pathExists loadable = FontHandle.truetype p size) :=
  tryFontList_spec pathExists loadable size (font_names bold)

/-- Witness for C9: with no file existing, the default font is returned. -/
theorem C9_get_font_total_witness :
    get_font 12 false (fun _ => false) (fun _ => false) = FontHandle.defaultFont := by
  rcases C9_get_font_total 12 false (fun _ => false) (fun _ => false) with
    ⟨hdef, _⟩ | ⟨p, _, hex, _⟩
  · exact hdef
  · simp at hex

/-! ## Claims C4, C8: typed reveal -/

theorem pyInt_of_nonneg {q : ℚ} (h : 0 ≤ q) : pyInt q = ⌊q⌋ := by
  rw [pyInt, if_neg (not_lt.mpr h)]

theorem typedRevealCount_eq_floor (r : ℚ) (hr : 0 ≤ r) :
    typedRevealCount r = ⌊(agent_response.length : ℚ) * min 1 (r * (3 / 2))⌋ := by
  have hmin : (0 : ℚ) ≤ min 1 (r * (3 / 2)) := le_min (by norm_num) (by positivity)
  rw [typedRevealCount, pyInt_of_nonneg (by positivity)]

/-- Claim C4: while phase == 1 the agent bubble shows exactly
floor(len(full_text) * min(1, progress*1.5)) characters of the
response, with the caret ▌ appended exactly while that count is below
the full length; for every phase ≥ 2 the full text is shown, no caret. -/
theorem C4_typed_reveal (progress : ℚ) (hp : 0 ≤ progress) (phase : ℤ) (h2 : 2 ≤ phase) :
    typedRevealCount progress =
      ⌊(agent_response.length : ℚ) * min 1 (progress * (3 / 2))⌋ ∧
    (create_chat_demo_frame progress 1).agentText =
      some (if typedRevealCount progress < (agent_response.length : ℤ) then
              agent_response.take (typedRevealCount progress).toNat ++ "▌"
            else agent_response.take (typedRevealCount progress).toNat) ∧
    (create_chat_demo_frame progress phase).agentText = some agent_response := by
  have hmin : (0 : ℚ) ≤ min 1 (progress * (3 / 2)) := le_min (by norm_num) (by positivity)
  have hnn : 0 ≤ typedRevealCount progress := by
    rw [typedRevealCount_eq_floor progress hp]
    exact Int.floor_nonneg.mpr (by positivity)
  have htake : pyStrTake agent_response (typedRevealCount progress)
      = agent_response.take (typedRevealCount progress).toNat := by
    rw [pyStrTake, if_pos hnn]
  refine ⟨typedRevealCount_eq_floor progress hp, ?_, ?_⟩
  · simp [create_chat_demo_frame, agentVisibleText, htake]
  · have h1 : (1 : ℤ) ≤ phase := by omega
    have hne : phase ≠ 1 := by omega
    simp [create_chat_demo_frame, agentVisibleText, h1, hne]

/-- Witness for C4 at progress 1/3, phase 2. -/
theorem C4_typed_reveal_witness :
    (0 : ℚ) ≤ 1 / 3 ∧ (2 : ℤ) ≤ 2 ∧
    (create_chat_demo_frame (1 / 3) 2).agentText = some agent_response :=
  ⟨by norm_num, le_refl 2, (C4_typed_reveal (1 / 3) (by norm_num) 2 (le_refl 2)).2.2⟩

/-- Claim C8: within phase 1 the typed-reveal character count
floor(len * min(1, progress*1.5)) is monotonically non-decreasing in
progress, and equals the full text length for every progress ≥ 2/3. -/
theorem C8_typed_reveal_monotone (p q : ℚ) (hp : 0 ≤ p) (hpq : p ≤ q) :
    (typedRevealCount p).toNat ≤ (typedRevealCount q).toNat ∧
    (2 / 3 ≤ p → (typedRevealCount p).toNat = agent_response.length) := by
  constructor
  · rw [typedRevealCount_eq_floor p hp, typedRevealCount_eq_floor q (le_trans hp hpq)]
    apply Int.toNat_le_toNat
    apply Int.floor_le_floor
    apply mul_le_mul_of_nonneg_left _ (by positivity)
    exact min_le_min (le_refl 1) (by linarith)
  · intro h23
    rw [typedRevealCount_eq_floor p hp, min_eq_left (by linarith), mul_one]
    simp

/-- Witness for C8 at p = 2/3, q = 1. -/
theorem C8_typed_reveal_monotone_witness :
    (0 : ℚ) ≤ 2 / 3 ∧ (2 / 3 : ℚ) ≤ 1 ∧
    (typedRevealCount (2 / 3)).toNat ≤ (typedRevealCount 1).toNat ∧
    (typedRevealCount (2 / 3)).toNat = agent_response.length :=
  ⟨by norm_num, by norm_num,
    (C8_typed_reveal_monotone (2 / 3) 1 (by norm_num) (by norm_num)).1,
    (C8_typed_reveal_monotone (2 / 3) 1 (by norm_num) (by norm_num)).2 (le_refl _)⟩

/-! ## Claim C5: preview item reveal -/

/-- Claim C5: while phase == 2 the preview draws
floor(4 * min(1, progress*2)) of the 4 todo items — all 4 for every
progress ≥ 1/2 — and every drawn item is styled by its done flag with
one of the two distinct colors CYAN (done) and WHITE (not done). -/
theorem C5_item_reveal (progress : ℚ) (hp : 0 ≤ progress) :
    previewItemCount (create_chat_demo_frame progress 2) =
      some (⌊(4 : ℚ) * min 1 (progress * 2)⌋.toNat) ∧
    (1 / 2 ≤ progress → previewItemCount (create_chat_demo_frame progress 2) = some 4) ∧
    (∀ pv, (create_chat_demo_frame progress 2).preview = some pv →
      ∀ it ∈ pv.itemsDrawn, it.2 = if it.1.2 then CYAN else WHITE) ∧
    CYAN ≠ WHITE := by
  have hq : (0 : ℚ) ≤ (4 : ℚ) * min 1 (progress * 2) := by
    have hmin : (0 : ℚ) ≤ min 1 (progress * 2) := le_min (by norm_num) (by positivity)
    positivity
  have hnn : 0 ≤ ⌊(4 : ℚ) * min 1 (progress * 2)⌋ := Int.floor_nonneg.mpr hq
  have hle : ⌊(4 : ℚ) * min 1 (progress * 2)⌋ ≤ 4 := by
    have hb : (4 : ℚ) * min 1 (progress * 2) ≤ 4 := by
      have := min_le_left (1 : ℚ) (progress * 2)
      nlinarith
    calc ⌊(4 : ℚ) * min 1 (progress * 2)⌋ ≤ ⌊(4 : ℚ)⌋ := Int.floor_le_floor hb
      _ = 4 := by norm_num
  have hn : pyInt ((todos.length : ℚ) * previewOpacity progress 2)
      = ⌊(4 : ℚ) * min 1 (progress * 2)⌋ := by
    have hop : previewOpacity progress 2 = min 1 (progress * 2) := by
      simp [previewOpacity]
    have hlen : (todos.length : ℚ) = 4 := by norm_num [todos]
    rw [hop, hlen, pyInt_of_nonneg hq]
  have hcount : previewItemCount (create_chat_demo_frame progress 2)
      = some (⌊(4 : ℚ) * min 1 (progress * 2)⌋.toNat) := by
    simp only [previewItemCount, create_chat_demo_frame, le_refl, if_pos,
      Option.map_some', hn, pyListTake, List.length_map, List.length_take]
    rw [if_pos hnn, List.length_take, min_eq_left (by simp [todos]; omega)]
  refine ⟨hcount, ?_, ?_, by decide⟩
  · intro hhalf
    rw [hcount, min_eq_left (by linarith)]
    norm_num
    decide
  · intro pv hpv it hit
    simp only [create_chat_demo_frame, le_refl, if_pos, Option.some.injEq] at hpv
    subst hpv
    rcases List.mem_map.mp hit with ⟨td, _, rfl⟩
    rfl

/-- Witness for C5 at progress 3/4. -/
theorem C5_item_reveal_witness :
    (0 : ℚ) ≤ 3 / 4 ∧ (1 / 2 : ℚ) ≤ 3 / 4 ∧
    previewItemCount (create_chat_demo_frame (3 / 4) 2) = some 4 :=
  ⟨by norm_num, by norm_num,
    (C5_item_reveal (3 / 4) (by norm_num)).2.1 (by norm_num)⟩

/-- Witness for C6 on both sides of the threshold. -/
theorem C6_url_caption_gate_witness :
    urlShown (create_chat_demo_frame (3 / 5) 2) = true ∧
    urlShown (create_chat_demo_frame (1 / 2) 2) ≠ true :=
  ⟨(C6_url_caption_gate 2 (3 / 5)).mpr ⟨rfl, by norm_num⟩,
    fun h => absurd ((C6_url_caption_gate 2 (1 / 2)).mp h).2 (by norm_num)⟩
